import Mathlib

/-!
Verification of the Keewepa landing-page script (src/scripts.js).

The file gives a shallow embedding of the TranslationManager class and of
the testimonial slider and countdown widgets, and proves properties of the
embedding.  The DOM is modelled as a finite association of CSS selectors to
element records; document.querySelector corresponds to looking up the first
entry with the given selector, and a write through a selector rewrites that
first entry.  Asynchronous fetch is modelled by passing the outcome of the
fetch pipeline (transport + status check + JSON parse) as an explicit
argument of type Option Resource: none stands for the catch branch
(network error, non-ok status, or parse failure), some r for a successfully
parsed resource.
-/

namespace Keewepa

/-- Update modes of TranslationManager.updateElement: the default mode
writes textContent, mode "html" writes innerHTML, mode "placeholder"
writes the placeholder attribute (src/scripts.js lines 360-374). -/
inductive UpdateType where
  | text
  | html
  | placeholder
deriving DecidableEq, Repr

/-- One DOM element, restricted to the fields the script reads or writes:
textContent, innerHTML, placeholder, and the class list. -/
structure Elem where
  textContent : String := ""
  innerHTML : String := ""
  placeholder : String := ""
  classes : List String := []
deriving DecidableEq, Repr

/-- A translation resource: the flat key-to-string mapping parsed from a
lang/CODE.json file, as an association list.  A key absent from the list
models an undefined property of the JSON object. -/
abbrev Resource := List (String × String)

/-- Lookup of the first entry with the given key in an association list.
For the DOM association this models document.querySelector (first match);
for resources it models JavaScript property access (undefined = none). -/
def lookupFirst {α : Type} : List (String × α) → String → Option α
  | [], _ => none
  | (k, v) :: rest, key => if k = key then some v else lookupFirst rest key

/-- Rewrite the first entry with the given key; a key with no entry leaves
the list unchanged.  This models a write through document.querySelector:
only the first matching element is mutated, and nothing happens when the
selector matches no element. -/
def setFirst {α : Type} : List (String × α) → String → α → List (String × α)
  | [], _, _ => []
  | (k, v) :: rest, key, a =>
      if k = key then (k, a) :: rest else (k, v) :: setFirst rest key a

/-- Store under a key in an association list, inserting the entry when it is
absent.  This models assignment to an object property, as in
this.translations[lang] = ... (src/scripts.js line 36). -/
def storeAssoc {α : Type} : List (String × α) → String → α → List (String × α)
  | [], key, a => [(key, a)]
  | (k, v) :: rest, key, a =>
      if k = key then (key, a) :: rest else (k, v) :: storeAssoc rest key a

/-- classList.add: appends the class when it is not already present. -/
def classAdd (cs : List String) (c : String) : List String :=
  if c ∈ cs then cs else cs ++ [c]

/-- classList.remove: removes every occurrence of the class. -/
def classRemove (cs : List String) (c : String) : List String :=
  cs.filter (fun x => x ≠ c)

/-- The document state the script manipulates: selector-addressed elements
(the translation regions, the current-language label, the dropdown), the
language options of the dropdown keyed by their data-lang attribute, and
the dir attribute and class list of document.body. -/
structure DocState where
  elems : List (String × Elem)
  langOptions : List (String × Elem)
  bodyDir : String
  bodyClasses : List String
deriving DecidableEq, Repr

/-- The mutable state of the TranslationManager instance: this.currentLang
and this.translations (the per-language resource cache). -/
structure TMState where
  currentLang : String
  translations : List (String × Resource)
deriving DecidableEq, Repr

/-- The write performed by one branch of the switch in updateElement
(src/scripts.js lines 363-372). -/
def applyUpdate (ty : UpdateType) (c : String) (el : Elem) : Elem :=
  match ty with
  | UpdateType.html => { el with innerHTML := c }
  | UpdateType.placeholder => { el with placeholder := c }
  | UpdateType.text => { el with textContent := c }

/-- The effect of updateElement on the selector-addressed elements
(src/scripts.js lines 360-374): querySelector the element, and write only
when the element exists and the content is truthy.  The content being a
string or undefined, truthy means present and non-empty. -/
def elemUpdate (es : List (String × Elem)) (sel : String) (content : Option String)
    (ty : UpdateType) : List (String × Elem) :=
  match lookupFirst es sel with
  | none => es
  | some el =>
    match content with
    | none => es
    | some c => if c = "" then es else setFirst es sel (applyUpdate ty c el)

/-- TranslationManager.updateElement lifted to the whole document state; it
touches only the selector-addressed elements. -/
def updateElement (d : DocState) (sel : String) (content : Option String)
    (ty : UpdateType) : DocState :=
  { d with elems := elemUpdate d.elems sel content ty }

/-- One region binding of updateUI: a CSS selector, the resource key whose
value is applied there, and the update mode. -/
structure Binding where
  sel : String
  key : String
  ty : UpdateType
deriving DecidableEq, Repr

set_option maxHeartbeats 1600000 in
/-- The fixed list of region bindings, in the order updateUI performs them
(src/scripts.js lines 240-351). -/
def bindings : List Binding := [
  ⟨"[data-key=\"home\"]", "home", UpdateType.text⟩,
  ⟨"[data-key=\"features\"]", "features", UpdateType.text⟩,
  ⟨"[data-key=\"about\"]", "about", UpdateType.text⟩,
  ⟨"[data-key=\"contact\"]", "contact", UpdateType.text⟩,
  ⟨"[data-key=\"hero_title\"]", "hero_title", UpdateType.html⟩,
  ⟨"[data-key=\"hero_description\"]", "hero_description", UpdateType.text⟩,
  ⟨"[data-key=\"hero_cta\"]", "hero_cta", UpdateType.text⟩,
  ⟨"[data-key=\"hero_demo\"]", "hero_demo", UpdateType.text⟩,
  ⟨"[data-key=\"launch_countdown\"]", "launch_countdown", UpdateType.text⟩,
  ⟨"[data-key=\"days_label\"]", "days_label", UpdateType.text⟩,
  ⟨"[data-key=\"hours_label\"]", "hours_label", UpdateType.text⟩,
  ⟨"[data-key=\"minutes_label\"]", "minutes_label", UpdateType.text⟩,
  ⟨"[data-key=\"seconds_label\"]", "seconds_label", UpdateType.text⟩,
  ⟨"[data-key=\"features_title\"]", "features_title", UpdateType.text⟩,
  ⟨"[data-key=\"features_description\"]", "features_description", UpdateType.text⟩,
  ⟨"[data-key=\"gallery_title\"]", "gallery_title", UpdateType.text⟩,
  ⟨"[data-key=\"gallery_description\"]", "gallery_description", UpdateType.text⟩,
  ⟨"[data-key=\"all_gallery\"]", "all_gallery", UpdateType.text⟩,
  ⟨"[data-key=\"men_gallery\"]", "men_gallery", UpdateType.text⟩,
  ⟨"[data-key=\"women_gallery\"]", "women_gallery", UpdateType.text⟩,
  ⟨"[data-key=\"salons_gallery\"]", "salons_gallery", UpdateType.text⟩,
  ⟨"[data-key=\"gallery_caption1\"]", "gallery_caption1", UpdateType.text⟩,
  ⟨"[data-key=\"gallery_desc1\"]", "gallery_desc1", UpdateType.text⟩,
  ⟨"[data-key=\"gallery_caption2\"]", "gallery_caption2", UpdateType.text⟩,
  ⟨"[data-key=\"gallery_desc2\"]", "gallery_desc2", UpdateType.text⟩,
  ⟨"[data-key=\"gallery_caption3\"]", "gallery_caption3", UpdateType.text⟩,
  ⟨"[data-key=\"gallery_desc3\"]", "gallery_desc3", UpdateType.text⟩,
  ⟨"[data-key=\"gallery_caption4\"]", "gallery_caption4", UpdateType.text⟩,
  ⟨"[data-key=\"gallery_desc4\"]", "gallery_desc4", UpdateType.text⟩,
  ⟨"[data-key=\"gallery_caption5\"]", "gallery_caption5", UpdateType.text⟩,
  ⟨"[data-key=\"gallery_desc5\"]", "gallery_desc5", UpdateType.text⟩,
  ⟨"[data-key=\"gallery_caption6\"]", "gallery_caption6", UpdateType.text⟩,
  ⟨"[data-key=\"gallery_desc6\"]", "gallery_desc6", UpdateType.text⟩,
  ⟨"[data-key=\"view_all_gallery\"]", "view_all_gallery", UpdateType.text⟩,
  ⟨"[data-key=\"testimonials_title\"]", "testimonials_title", UpdateType.text⟩,
  ⟨"[data-key=\"testimonials_description\"]", "testimonials_description", UpdateType.text⟩,
  ⟨"[data-key=\"verified\"]", "verified", UpdateType.text⟩,
  ⟨".stat-item:nth-child(1) .stat-label", "customer_rating", UpdateType.text⟩,
  ⟨".stat-item:nth-child(2) .stat-label", "happy_customers", UpdateType.text⟩,
  ⟨".stat-item:nth-child(3) .stat-label", "recommend_us", UpdateType.text⟩,
  ⟨"[data-key=\"cta_title\"]", "cta_title", UpdateType.text⟩,
  ⟨"[data-key=\"cta_description\"]", "cta_description", UpdateType.text⟩,
  ⟨"[data-key=\"cta_placeholder\"]", "cta_placeholder", UpdateType.placeholder⟩,
  ⟨"[data-key=\"cta_button\"]", "cta_button", UpdateType.text⟩,
  ⟨"[data-key=\"footer_title\"]", "footer_title", UpdateType.text⟩,
  ⟨"[data-key=\"footer_description\"]", "footer_description", UpdateType.html⟩,
  ⟨"[data-key=\"copyright\"]", "copyright", UpdateType.html⟩,
  ⟨"[data-key=\"quick_links\"]", "quick_links", UpdateType.text⟩,
  ⟨"[data-key=\"services\"]", "services", UpdateType.text⟩,
  ⟨"[data-key=\"contact_us\"]", "contact_us", UpdateType.text⟩,
  ⟨"[data-key=\"feature1_title\"]", "feature1_title", UpdateType.text⟩,
  ⟨"[data-key=\"feature1_desc\"]", "feature1_desc", UpdateType.text⟩,
  ⟨"[data-key=\"feature2_title\"]", "feature2_title", UpdateType.text⟩,
  ⟨"[data-key=\"feature2_desc\"]", "feature2_desc", UpdateType.text⟩,
  ⟨"[data-key=\"feature3_title\"]", "feature3_title", UpdateType.text⟩,
  ⟨"[data-key=\"feature3_desc\"]", "feature3_desc", UpdateType.text⟩,
  ⟨"[data-key=\"feature4_title\"]", "feature4_title", UpdateType.text⟩,
  ⟨"[data-key=\"feature4_desc\"]", "feature4_desc", UpdateType.text⟩,
  ⟨"[data-key=\"feature5_title\"]", "feature5_title", UpdateType.text⟩,
  ⟨"[data-key=\"feature5_desc\"]", "feature5_desc", UpdateType.text⟩,
  ⟨"[data-key=\"feature6_title\"]", "feature6_title", UpdateType.text⟩,
  ⟨"[data-key=\"feature6_desc\"]", "feature6_desc", UpdateType.text⟩,
  ⟨"[data-key=\"testimonial1_text\"]", "testimonial1_text", UpdateType.text⟩,
  ⟨"[data-key=\"testimonial1_name\"]", "testimonial1_name", UpdateType.text⟩,
  ⟨"[data-key=\"testimonial1_role\"]", "testimonial1_role", UpdateType.text⟩,
  ⟨"[data-key=\"testimonial2_text\"]", "testimonial2_text", UpdateType.text⟩,
  ⟨"[data-key=\"testimonial2_name\"]", "testimonial2_name", UpdateType.text⟩,
  ⟨"[data-key=\"testimonial2_role\"]", "testimonial2_role", UpdateType.text⟩,
  ⟨"[data-key=\"testimonial3_text\"]", "testimonial3_text", UpdateType.text⟩,
  ⟨"[data-key=\"testimonial3_name\"]", "testimonial3_name", UpdateType.text⟩,
  ⟨"[data-key=\"testimonial3_role\"]", "testimonial3_role", UpdateType.text⟩,
  ⟨"[data-key=\"home_footer\"]", "home_footer", UpdateType.text⟩,
  ⟨"[data-key=\"about_footer\"]", "about_footer", UpdateType.text⟩,
  ⟨"[data-key=\"features_footer\"]", "features_footer", UpdateType.text⟩,
  ⟨"[data-key=\"privacy\"]", "privacy", UpdateType.text⟩,
  ⟨"[data-key=\"terms\"]", "terms", UpdateType.text⟩,
  ⟨"[data-key=\"service1\"]", "service1", UpdateType.text⟩,
  ⟨"[data-key=\"service2\"]", "service2", UpdateType.text⟩,
  ⟨"[data-key=\"service3\"]", "service3", UpdateType.text⟩,
  ⟨"[data-key=\"service4\"]", "service4", UpdateType.text⟩,
  ⟨"[data-key=\"service5\"]", "service5", UpdateType.text⟩,
  ⟨"[data-key=\"address\"]", "address", UpdateType.text⟩,
  ⟨"[data-key=\"phone\"]", "phone", UpdateType.text⟩,
  ⟨"[data-key=\"email\"]", "email", UpdateType.text⟩]

/-- One call of this.updateElement inside updateUI, for the binding b and
the resource t of the current language. -/
def syncStep (t : Resource) (d : DocState) (b : Binding) : DocState :=
  updateElement d b.sel (lookupFirst t b.key) b.ty

/-- The same step on the selector-addressed element list alone. -/
def syncStepE (t : Resource) (es : List (String × Elem)) (b : Binding) :
    List (String × Elem) :=
  elemUpdate es b.sel (lookupFirst t b.key) b.ty

/-- TranslationManager.updateUI (src/scripts.js lines 232-352): when no
resource is cached for the current language it logs a diagnostic and
returns with the document untouched; otherwise it performs the fixed
sequence of updateElement calls recorded in bindings. -/
def updateUI (st : TMState) (d : DocState) : DocState :=
  match lookupFirst st.translations st.currentLang with
  | none => d
  | some t => bindings.foldl (syncStep t) d

/-- TranslationManager.loadLanguage (src/scripts.js lines 30-41).  The
fetch of lang/LANG.json is performed unconditionally; fetchResult is its
outcome.  On success the parsed resource is stored in the cache and the
current language is set; the catch branch only logs, leaving the state
unchanged. -/
def loadLanguage (st : TMState) (lang : String) (fetchResult : Option Resource) :
    TMState :=
  match fetchResult with
  | some r =>
      { currentLang := lang, translations := storeAssoc st.translations lang r }
  | none => st

/-- The text written into the .current-lang label for each supported code
(src/scripts.js lines 201-203); an unsupported code writes nothing. -/
def currentLangLabel (lang : String) : Option String :=
  if lang = "ar" then some "العربية"
  else if lang = "fr" then some "Français"
  else if lang = "en" then some "English"
  else none

/-- Write textContent of the first element at the selector, when present. -/
def setTextContentFirst (es : List (String × Elem)) (sel t : String) :
    List (String × Elem) :=
  match lookupFirst es sel with
  | some el => setFirst es sel { el with textContent := t }
  | none => es

/-- classList.remove on the first element at the selector, when present. -/
def removeClassFirst (es : List (String × Elem)) (sel c : String) :
    List (String × Elem) :=
  match lookupFirst es sel with
  | some el => setFirst es sel { el with classes := classRemove el.classes c }
  | none => es

/-- classList.add on the first element at the selector, when present. -/
def addClassFirst (es : List (String × Elem)) (sel c : String) :
    List (String × Elem) :=
  match lookupFirst es sel with
  | some el => setFirst es sel { el with classes := classAdd el.classes c }
  | none => es

/-- TranslationManager.changeLanguage (src/scripts.js lines 179-221).  A
call with the current language is a complete no-op.  Otherwise: load the
resource when it is not cached (fetchResult is the outcome of that fetch,
unused when the cache already holds the code), set this.currentLang
unconditionally, re-run updateUI, move the active class among the dropdown
options, rewrite the .current-lang label, set the dir attribute and the
ltr class of body, and remove the show class from the dropdown. -/
def changeLanguage (st : TMState) (d : DocState) (lang : String)
    (fetchResult : Option Resource) : TMState × DocState :=
  if lang = st.currentLang then (st, d)
  else
    let st1 := if (lookupFirst st.translations lang).isSome then st
               else loadLanguage st lang fetchResult
    let st2 := { st1 with currentLang := lang }
    let d1 := updateUI st2 d
    let clearedOpts := d1.langOptions.map
      (fun p => (p.1, { p.2 with classes := classRemove p.2.classes "active" }))
    let d2 := { d1 with langOptions := addClassFirst clearedOpts lang "active" }
    let d3 := match currentLangLabel lang with
      | some txt => { d2 with elems := setTextContentFirst d2.elems ".current-lang" txt }
      | none => d2
    let d4 := if lang = "ar" then
        { d3 with bodyClasses := classRemove d3.bodyClasses "ltr", bodyDir := "rtl" }
      else
        { d3 with bodyClasses := classAdd d3.bodyClasses "ltr", bodyDir := "ltr" }
    let d5 := { d4 with elems := removeClassFirst d4.elems ".lang-dropdown" "show" }
    (st2, d5)

/-- An operation of a page session that can reach loadLanguage: either a
direct loadLanguage call or a changeLanguage call (the lang-option click
handler, src/scripts.js lines 67-73).  Each carries the outcome its fetch
would have. -/
inductive Op where
  | load : String → Option Resource → Op
  | change : String → Option Resource → Op
deriving DecidableEq, Repr

/-- Whether an operation is a changeLanguage call. -/
def Op.isChange : Op → Bool
  | Op.change _ _ => true
  | Op.load _ _ => false

/-- The language codes an operation fetches a resource file for.
loadLanguage fetches unconditionally (src/scripts.js line 32); inside
changeLanguage the fetch is reached only when the requested code differs
from the current one and its resource is not cached (lines 180-184). -/
def fetchEvents (st : TMState) : Op → List String
  | Op.load lang _ => [lang]
  | Op.change lang _ =>
      if lang = st.currentLang then []
      else if (lookupFirst st.translations lang).isSome then []
      else [lang]

/-- One session operation applied to the manager and document state,
together with the codes it fetched. -/
def stepOp (s : TMState × DocState) (op : Op) : (TMState × DocState) × List String :=
  match op with
  | Op.load lang f => ((loadLanguage s.1 lang f, s.2), fetchEvents s.1 (Op.load lang f))
  | Op.change lang f => (changeLanguage s.1 s.2 lang f, fetchEvents s.1 (Op.change lang f))

/-- Run a list of session operations, collecting every fetched code. -/
def runOps (s : TMState × DocState) : List Op → (TMState × DocState) × List String
  | [] => (s, [])
  | op :: ops =>
      let r1 := stepOp s op
      let r2 := runOps r1.1 ops
      (r2.1, r1.2 ++ r2.2)

/-- The testimonial slider state: the active flag of each slide in order
(the active class), and the captured currentSlide variable
(src/scripts.js lines 130-165). -/
structure Slider where
  slides : List Bool
  current : Nat
deriving DecidableEq, Repr

/-- The showSlide closure (src/scripts.js lines 138-142): deactivate every
slide, activate the one at the index, record the index.  Indexing the
slide collection out of range has no element to activate; the total
embedding returns none there (in the browser the handler throws at
slides[index].classList). -/
def showSlide (s : Slider) (i : Nat) : Option Slider :=
  if i < s.slides.length then
    some { slides := (s.slides.map (fun _ => false)).set i true, current := i }
  else none

/-- The index computed by the next-button and auto-advance handlers:
(currentSlide + 1) % slideCount.  With zero slides the JavaScript
expression is a modulo by zero (NaN); the embedding then leaves the sum
unreduced and showSlide fails on it. -/
def nextIndex (s : Slider) : Nat :=
  (s.current + 1) % s.slides.length

/-- The index computed by the previous-button handler:
(currentSlide - 1 + slideCount) % slideCount, over the integers as in
JavaScript. -/
def prevIndex (s : Slider) : Nat :=
  ((((s.current : Int) - 1 + (s.slides.length : Int)) % (s.slides.length : Int))).toNat

/-- One next-advance (next button click or auto-advance tick,
src/scripts.js lines 146-149 and 161-164). -/
def nextStep (s : Slider) : Option Slider :=
  showSlide s (nextIndex s)

/-- One previous-advance (previous button click, lines 154-157). -/
def prevStep (s : Slider) : Option Slider :=
  showSlide s (prevIndex s)

/-- Iterated next-advances. -/
def iterateNext : Nat → Slider → Option Slider
  | 0, s => some s
  | k + 1, s => (nextStep s).bind (iterateNext k)

/-- The slide flag vector in which exactly the slide at the index carries
the active class. -/
def oneActive (n i : Nat) : List Bool :=
  (List.replicate n false).set i true

/-- Milliseconds per second, minute, hour and day, as in the countdown
arithmetic (src/scripts.js lines 389-392). -/
def msPerSecond : Nat := 1000

/-- Milliseconds per minute. -/
def msPerMinute : Nat := 1000 * 60

/-- Milliseconds per hour. -/
def msPerHour : Nat := 1000 * 60 * 60

/-- Milliseconds per day. -/
def msPerDay : Nat := 1000 * 60 * 60 * 24

/-- The launch date recomputed inside every countdown tick: the instant of
the tick plus 30 days (src/scripts.js lines 383-384). -/
def launchDate (now : Nat) : Nat :=
  now + 30 * msPerDay

/-- The four numbers the countdown writes into the days, hours, minutes
and seconds elements. -/
structure CountdownDisplay where
  days : Nat
  hours : Nat
  minutes : Nat
  seconds : Nat
deriving DecidableEq, Repr

/-- One tick of updateCountdown (src/scripts.js lines 381-403), at the
tick instant now in milliseconds. -/
def updateCountdown (now : Nat) : CountdownDisplay :=
  let diff := launchDate now - now
  { days := diff / msPerDay
  , hours := diff % msPerDay / msPerHour
  , minutes := diff % msPerHour / msPerMinute
  , seconds := diff % msPerMinute / msPerSecond }

/-- A small concrete resource, used in concrete instantiations. -/
def resA : Resource := [("home", "A")]

/-- A second concrete resource, distinct from resA. -/
def resB : Resource := [("home", "B")]

/-- A concrete manager state after the initial Arabic load: current
language ar, only the ar resource cached. -/
def stAr : TMState := { currentLang := "ar", translations := [("ar", resA)] }

/-- A concrete manager state with current language ar and the en resource
cached. -/
def stArEn : TMState := { currentLang := "ar", translations := [("en", resA)] }

/-- A concrete manager state with current language fr and the ar resource
cached. -/
def stFr : TMState := { currentLang := "fr", translations := [("ar", resA)] }

/-- A concrete manager state whose current language has no cached
resource. -/
def stNone : TMState := { currentLang := "en", translations := [] }

/-- A concrete document state with no elements. -/
def emptyDoc : DocState :=
  { elems := [], langOptions := [], bodyDir := "rtl", bodyClasses := [] }

/-- A concrete document state holding the home region with some prior
content. -/
def homeDoc : DocState :=
  { elems := [("[data-key=\"home\"]",
      { textContent := "old", innerHTML := "", placeholder := "", classes := [] })]
  , langOptions := []
  , bodyDir := "rtl"
  , bodyClasses := [] }

/-- A concrete resource holding only the hero title, as in the example
scenario of the specification. -/
def resW : Resource := [("hero_title", "Welcome")]

/-- A concrete manager state whose current language en has resW cached. -/
def stW : TMState := { currentLang := "en", translations := [("en", resW)] }

/-- A concrete document state holding the hero-title region with some
prior markup. -/
def heroDoc : DocState :=
  { elems := [("[data-key=\"hero_title\"]",
      { textContent := "", innerHTML := "x", placeholder := "", classes := [] })]
  , langOptions := []
  , bodyDir := "ltr"
  , bodyClasses := ["ltr"] }

/-- The region binding of the home navigation link. -/
def bHome : Binding := ⟨"[data-key=\"home\"]", "home", UpdateType.text⟩

/-- The region binding of the hero title (markup mode). -/
def bHero : Binding := ⟨"[data-key=\"hero_title\"]", "hero_title", UpdateType.html⟩

/-- A concrete slider with three slides, the middle one active. -/
def sld3 : Slider := { slides := [false, true, false], current := 1 }

/-! Association-list lemmas. -/

theorem lookupFirst_setFirst_ne {α : Type} (es : List (String × α)) (k k' : String) (v : α)
    (h : k ≠ k') : lookupFirst (setFirst es k v) k' = lookupFirst es k' := by
  induction es with
  | nil => rfl
  | cons p rest ih =>
    obtain ⟨x, b⟩ := p
    by_cases hx : x = k
    · subst hx
      have hx' : x ≠ k' := h
      simp [setFirst, lookupFirst, hx']
    · by_cases hk' : x = k'
      · simp [setFirst, lookupFirst, hx, hk', Ne.symm h]
      · simp [setFirst, lookupFirst, hx, hk', ih]

theorem lookupFirst_setFirst_self {α : Type} (es : List (String × α)) (k : String) (v : α)
    (h : (lookupFirst es k).isSome) : lookupFirst (setFirst es k v) k = some v := by
  induction es with
  | nil => simp [lookupFirst] at h
  | cons p rest ih =>
    obtain ⟨x, b⟩ := p
    by_cases hx : x = k
    · simp [setFirst, lookupFirst, hx]
    · simp only [lookupFirst, if_neg hx] at h
      simp [setFirst, lookupFirst, hx, ih h]

theorem setFirst_of_lookupFirst_none {α : Type} (es : List (String × α)) (k : String) (v : α)
    (h : lookupFirst es k = none) : setFirst es k v = es := by
  induction es with
  | nil => rfl
  | cons p rest ih =>
    obtain ⟨x, b⟩ := p
    by_cases hx : x = k
    · simp [lookupFirst, hx] at h
    · simp only [lookupFirst, if_neg hx] at h
      simp [setFirst, hx, ih h]

theorem setFirst_setFirst_self {α : Type} (es : List (String × α)) (k : String) (v w : α) :
    setFirst (setFirst es k v) k w = setFirst es k w := by
  induction es with
  | nil => rfl
  | cons p rest ih =>
    obtain ⟨x, b⟩ := p
    by_cases hx : x = k
    · simp [setFirst, hx]
    · simp [setFirst, hx, ih]

theorem setFirst_setFirst_comm {α : Type} (es : List (String × α)) (k k' : String) (v w : α)
    (h : k ≠ k') : setFirst (setFirst es k v) k' w = setFirst (setFirst es k' w) k v := by
  induction es with
  | nil => rfl
  | cons p rest ih =>
    obtain ⟨x, b⟩ := p
    by_cases hx : x = k
    · subst hx
      have hx' : x ≠ k' := h
      simp [setFirst, hx']
    · by_cases hk' : x = k'
      · subst hk'
        simp [setFirst, hx]
      · simp [setFirst, hx, hk', ih]

/-! Lemmas about the per-region update. -/

theorem applyUpdate_idem (ty : UpdateType) (c : String) (el : Elem) :
    applyUpdate ty c (applyUpdate ty c el) = applyUpdate ty c el := by
  cases ty <;> rfl

theorem elemUpdate_of_lookup_none (es : List (String × Elem)) (sel : String)
    (c : Option String) (ty : UpdateType) (h : lookupFirst es sel = none) :
    elemUpdate es sel c ty = es := by
  simp [elemUpdate, h]

theorem lookupFirst_elemUpdate_ne (es : List (String × Elem)) (sel : String)
    (c : Option String) (ty : UpdateType) (s : String) (h : sel ≠ s) :
    lookupFirst (elemUpdate es sel c ty) s = lookupFirst es s := by
  unfold elemUpdate
  cases hl : lookupFirst es sel with
  | none => rfl
  | some el =>
    cases c with
    | none => rfl
    | some str =>
      by_cases hc : str = ""
      · simp [hc]
      · simp [hc, lookupFirst_setFirst_ne es sel s _ h]

theorem elemUpdate_preserves_none (es : List (String × Elem)) (sel : String)
    (c : Option String) (ty : UpdateType) (s : String)
    (h : lookupFirst es s = none) :
    lookupFirst (elemUpdate es sel c ty) s = none := by
  by_cases hs : sel = s
  · subst hs
    rw [elemUpdate_of_lookup_none es sel c ty h, h]
  · rw [lookupFirst_elemUpdate_ne es sel c ty s hs, h]

theorem elemUpdate_inactive (es : List (String × Elem)) (sel : String) (ty : UpdateType)
    (c : Option String) (h : c = none ∨ c = some "") : elemUpdate es sel c ty = es := by
  rcases h with rfl | rfl <;> cases hl : lookupFirst es sel <;> simp [elemUpdate, hl]

theorem elemUpdate_active (es : List (String × Elem)) (sel : String) (ty : UpdateType)
    (str : String) (el : Elem) (hl : lookupFirst es sel = some el) (hs : str ≠ "") :
    elemUpdate es sel (some str) ty = setFirst es sel (applyUpdate ty str el) := by
  simp [elemUpdate, hl, hs]

theorem elemUpdate_comm (es : List (String × Elem)) (s1 s2 : String)
    (c1 c2 : Option String) (t1 t2 : UpdateType) (h : s1 ≠ s2) :
    elemUpdate (elemUpdate es s1 c1 t1) s2 c2 t2
      = elemUpdate (elemUpdate es s2 c2 t2) s1 c1 t1 := by
  by_cases hA : c1 = none ∨ c1 = some ""
  · rw [elemUpdate_inactive es s1 t1 c1 hA,
        elemUpdate_inactive (elemUpdate es s2 c2 t2) s1 t1 c1 hA]
  · obtain ⟨str1, rfl, hs1⟩ : ∃ str, c1 = some str ∧ str ≠ "" := by
      cases c1 with
      | none => exact absurd (Or.inl rfl) hA
      | some s => exact ⟨s, rfl, fun he => hA (Or.inr (by rw [he]))⟩
    by_cases hB : c2 = none ∨ c2 = some ""
    · rw [elemUpdate_inactive es s2 t2 c2 hB,
          elemUpdate_inactive (elemUpdate es s1 (some str1) t1) s2 t2 c2 hB]
    · obtain ⟨str2, rfl, hs2⟩ : ∃ str, c2 = some str ∧ str ≠ "" := by
        cases c2 with
        | none => exact absurd (Or.inl rfl) hB
        | some s => exact ⟨s, rfl, fun he => hB (Or.inr (by rw [he]))⟩
      cases h1 : lookupFirst es s1 with
      | none =>
        rw [elemUpdate_of_lookup_none es s1 (some str1) t1 h1,
            elemUpdate_of_lookup_none (elemUpdate es s2 (some str2) t2) s1 (some str1) t1
              (by rw [lookupFirst_elemUpdate_ne es s2 (some str2) t2 s1 (Ne.symm h), h1])]
      | some el1 =>
        cases h2 : lookupFirst es s2 with
        | none =>
          rw [elemUpdate_of_lookup_none es s2 (some str2) t2 h2,
              elemUpdate_of_lookup_none (elemUpdate es s1 (some str1) t1) s2 (some str2) t2
                (by rw [lookupFirst_elemUpdate_ne es s1 (some str1) t1 s2 h, h2])]
        | some el2 =>
          rw [elemUpdate_active es s1 t1 str1 el1 h1 hs1,
              elemUpdate_active es s2 t2 str2 el2 h2 hs2,
              elemUpdate_active (setFirst es s1 (applyUpdate t1 str1 el1)) s2 t2 str2 el2
                (by rw [lookupFirst_setFirst_ne es s1 s2 _ h, h2]) hs2,
              elemUpdate_active (setFirst es s2 (applyUpdate t2 str2 el2)) s1 t1 str1 el1
                (by rw [lookupFirst_setFirst_ne es s2 s1 _ (Ne.symm h), h1]) hs1,
              setFirst_setFirst_comm es s1 s2 _ _ h]

theorem elemUpdate_idem (es : List (String × Elem)) (sel : String)
    (c : Option String) (ty : UpdateType) :
    elemUpdate (elemUpdate es sel c ty) sel c ty = elemUpdate es sel c ty := by
  by_cases hA : c = none ∨ c = some ""
  · rw [elemUpdate_inactive es sel ty c hA, elemUpdate_inactive es sel ty c hA]
  · obtain ⟨str, rfl, hs⟩ : ∃ s, c = some s ∧ s ≠ "" := by
      cases c with
      | none => exact absurd (Or.inl rfl) hA
      | some s => exact ⟨s, rfl, fun he => hA (Or.inr (by rw [he]))⟩
    cases h1 : lookupFirst es sel with
    | none =>
      rw [elemUpdate_of_lookup_none es sel (some str) ty h1,
          elemUpdate_of_lookup_none es sel (some str) ty h1]
    | some el =>
      rw [elemUpdate_active es sel ty str el h1 hs,
          elemUpdate_active (setFirst es sel (applyUpdate ty str el)) sel ty str
            (applyUpdate ty str el)
            (lookupFirst_setFirst_self es sel _ (by rw [h1]; rfl)) hs,
          applyUpdate_idem, setFirst_setFirst_self]

/-! Lemmas about the updateUI fold. -/

theorem foldl_syncStep_elems (t : Resource) (bs : List Binding) :
    ∀ d : DocState, bs.foldl (syncStep t) d = { d with elems := bs.foldl (syncStepE t) d.elems } := by
  induction bs with
  | nil => intro d; rfl
  | cons b rest ih =>
    intro d
    rw [List.foldl_cons, List.foldl_cons, ih]
    rfl

theorem lookupFirst_foldE_not_mem (t : Resource) (s : String) :
    ∀ bs : List Binding, s ∉ bs.map Binding.sel →
    ∀ es, lookupFirst (bs.foldl (syncStepE t) es) s = lookupFirst es s := by
  intro bs
  induction bs with
  | nil => intro _ es; rfl
  | cons b rest ih =>
    intro h es
    simp only [List.map_cons, List.mem_cons] at h
    push_neg at h
    rw [List.foldl_cons, ih h.2]
    exact lookupFirst_elemUpdate_ne es b.sel (lookupFirst t b.key) b.ty s (Ne.symm h.1)

theorem foldE_none_preserved (t : Resource) (s : String) :
    ∀ bs : List Binding, ∀ es, lookupFirst es s = none →
    lookupFirst (bs.foldl (syncStepE t) es) s = none := by
  intro bs
  induction bs with
  | nil => intro es h; exact h
  | cons b rest ih =>
    intro es h
    rw [List.foldl_cons]
    exact ih _ (elemUpdate_preserves_none es b.sel (lookupFirst t b.key) b.ty s h)

theorem foldE_elemUpdate_comm (t : Resource) (sel : String) (c : Option String)
    (ty : UpdateType) :
    ∀ bs : List Binding, sel ∉ bs.map Binding.sel →
    ∀ es, bs.foldl (syncStepE t) (elemUpdate es sel c ty)
      = elemUpdate (bs.foldl (syncStepE t) es) sel c ty := by
  intro bs
  induction bs with
  | nil => intro _ es; rfl
  | cons b rest ih =>
    intro h es
    simp only [List.map_cons, List.mem_cons] at h
    push_neg at h
    rw [List.foldl_cons, List.foldl_cons]
    have hcomm : syncStepE t (elemUpdate es sel c ty) b
        = elemUpdate (syncStepE t es b) sel c ty :=
      elemUpdate_comm es sel b.sel c (lookupFirst t b.key) ty b.ty h.1
    rw [hcomm, ih h.2]

theorem foldE_idem (t : Resource) :
    ∀ bs : List Binding, (bs.map Binding.sel).Nodup →
    ∀ es, bs.foldl (syncStepE t) (bs.foldl (syncStepE t) es) = bs.foldl (syncStepE t) es := by
  intro bs
  induction bs with
  | nil => intro _ es; rfl
  | cons b rest ih =>
    intro hnd es
    simp only [List.map_cons, List.nodup_cons] at hnd
    rw [List.foldl_cons, List.foldl_cons]
    have hc : ∀ x, rest.foldl (syncStepE t) (syncStepE t x b)
        = syncStepE t (rest.foldl (syncStepE t) x) b := fun x =>
      foldE_elemUpdate_comm t b.sel (lookupFirst t b.key) b.ty rest hnd.1 x
    have hu : syncStepE t (syncStepE t es b) b = syncStepE t es b :=
      elemUpdate_idem es b.sel (lookupFirst t b.key) b.ty
    calc rest.foldl (syncStepE t) (syncStepE t (rest.foldl (syncStepE t) (syncStepE t es b)) b)
        = rest.foldl (syncStepE t) (rest.foldl (syncStepE t) (syncStepE t (syncStepE t es b) b)) := by
          rw [hc (syncStepE t es b)]
      _ = rest.foldl (syncStepE t) (syncStepE t (syncStepE t es b) b) := ih hnd.2 _
      _ = rest.foldl (syncStepE t) (syncStepE t es b) := by rw [hu]

theorem bindings_sels_nodup : (bindings.map Binding.sel).Nodup := by decide

theorem foldE_frame_inactive (t : Resource) (b : Binding) :
    ∀ bs : List Binding, (bs.map Binding.sel).Nodup → b ∈ bs →
    (lookupFirst t b.key = none ∨ lookupFirst t b.key = some "") →
    ∀ es, lookupFirst (bs.foldl (syncStepE t) es) b.sel = lookupFirst es b.sel := by
  intro bs
  induction bs with
  | nil => intro _ hmem; exact absurd hmem (List.not_mem_nil b)
  | cons b0 rest ih =>
    intro hnd hmem hc es
    simp only [List.map_cons, List.nodup_cons] at hnd
    rw [List.foldl_cons]
    rcases List.mem_cons.mp hmem with rfl | hmem'
    · have hstep : syncStepE t es b = es :=
        elemUpdate_inactive es b.sel b.ty (lookupFirst t b.key) hc
      rw [hstep]
      exact lookupFirst_foldE_not_mem t b.sel rest hnd.1 es
    · have hne : b0.sel ≠ b.sel := by
        intro he
        exact hnd.1 (by rw [he]; exact List.mem_map.mpr ⟨b, hmem', rfl⟩)
      rw [ih hnd.2 hmem' hc (syncStepE t es b0)]
      exact lookupFirst_elemUpdate_ne es b0.sel (lookupFirst t b0.key) b0.ty b.sel hne

theorem foldE_applies (t : Resource) (b : Binding) :
    ∀ bs : List Binding, (bs.map Binding.sel).Nodup → b ∈ bs →
    ∀ (c : String) (el : Elem) es,
    lookupFirst t b.key = some c → c ≠ "" → lookupFirst es b.sel = some el →
    lookupFirst (bs.foldl (syncStepE t) es) b.sel = some (applyUpdate b.ty c el) := by
  intro bs
  induction bs with
  | nil => intro _ hmem; exact absurd hmem (List.not_mem_nil b)
  | cons b0 rest ih =>
    intro hnd hmem c el es hk hc hel
    simp only [List.map_cons, List.nodup_cons] at hnd
    rw [List.foldl_cons]
    rcases List.mem_cons.mp hmem with rfl | hmem'
    · have hstep : syncStepE t es b = setFirst es b.sel (applyUpdate b.ty c el) := by
        show elemUpdate es b.sel (lookupFirst t b.key) b.ty = _
        rw [hk]
        exact elemUpdate_active es b.sel b.ty c el hel hc
      rw [hstep, lookupFirst_foldE_not_mem t b.sel rest hnd.1]
      exact lookupFirst_setFirst_self es b.sel _ (by rw [hel]; rfl)
    · have hne : b0.sel ≠ b.sel := by
        intro he
        exact hnd.1 (by rw [he]; exact List.mem_map.mpr ⟨b, hmem', rfl⟩)
      have hel' : lookupFirst (syncStepE t es b0) b.sel = some el := by
        rw [show syncStepE t es b0
            = elemUpdate es b0.sel (lookupFirst t b0.key) b0.ty from rfl,
          lookupFirst_elemUpdate_ne es b0.sel (lookupFirst t b0.key) b0.ty b.sel hne, hel]
      exact ih hnd.2 hmem' c el _ hk hc hel'

/-! Lemmas about the resource cache. -/

theorem lookupFirst_storeAssoc_self {α : Type} (l : List (String × α)) (k : String) (v : α) :
    lookupFirst (storeAssoc l k v) k = some v := by
  induction l with
  | nil => simp [storeAssoc, lookupFirst]
  | cons p rest ih =>
    obtain ⟨x, b⟩ := p
    by_cases hx : x = k
    · simp [storeAssoc, lookupFirst, hx]
    · simp [storeAssoc, lookupFirst, hx, ih]

theorem lookupFirst_storeAssoc_ne {α : Type} (l : List (String × α)) (k k' : String) (v : α)
    (h : k ≠ k') : lookupFirst (storeAssoc l k v) k' = lookupFirst l k' := by
  induction l with
  | nil => simp [storeAssoc, lookupFirst, h]
  | cons p rest ih =>
    obtain ⟨x, b⟩ := p
    by_cases hx : x = k
    · subst hx
      simp [storeAssoc, lookupFirst, h]
    · by_cases hk' : x = k'
      · simp [storeAssoc, lookupFirst, hx, hk', Ne.symm h]
      · simp [storeAssoc, lookupFirst, hx, hk', ih]

theorem storeAssoc_mono {α : Type} (l : List (String × α)) (k k' : String) (v : α)
    (h : (lookupFirst l k).isSome) : (lookupFirst (storeAssoc l k' v) k).isSome := by
  by_cases hk : k' = k
  · subst hk
    rw [lookupFirst_storeAssoc_self]
    rfl
  · rw [lookupFirst_storeAssoc_ne l k' k v hk]
    exact h

/-! Lemmas about changeLanguage. -/

theorem changeLanguage_self (st : TMState) (d : DocState) (lang : String)
    (f : Option Resource) (h : lang = st.currentLang) :
    changeLanguage st d lang f = (st, d) := by
  simp [changeLanguage, h]

theorem changeLanguage_currentLang (st : TMState) (d : DocState) (lang : String)
    (f : Option Resource) : (changeLanguage st d lang f).1.currentLang = lang := by
  by_cases h : lang = st.currentLang
  · rw [changeLanguage_self st d lang f h]
    exact h.symm
  · simp [changeLanguage, h]

theorem changeLanguage_translations_mono (st : TMState) (d : DocState) (lang k : String)
    (f : Option Resource) (h : (lookupFirst st.translations k).isSome) :
    (lookupFirst (changeLanguage st d lang f).1.translations k).isSome := by
  by_cases hg : lang = st.currentLang
  · rw [changeLanguage_self st d lang f hg]
    exact h
  · by_cases hc : (lookupFirst st.translations lang).isSome
    · simp only [changeLanguage, if_neg hg, if_pos hc]
      exact h
    · cases f with
      | none =>
        simp only [changeLanguage, if_neg hg, if_neg hc, loadLanguage]
        exact h
      | some r =>
        simp only [changeLanguage, if_neg hg, if_neg hc, loadLanguage]
        exact storeAssoc_mono st.translations k lang r h

/-! Session lemmas. -/

theorem fetchEvents_change_not_cached (st : TMState) (l lang : String) (f : Option Resource)
    (hcached : (lookupFirst st.translations lang).isSome) :
    lang ∉ fetchEvents st (Op.change l f) := by
  unfold fetchEvents
  by_cases h1 : l = st.currentLang
  · simp [h1]
  · by_cases h2 : (lookupFirst st.translations l).isSome
    · simp [h1, h2]
    · simp only [if_neg h1, h2, Bool.false_eq_true, if_false, if_neg]
      intro he
      rw [List.mem_singleton] at he
      subst he
      exact h2 hcached

/-! Slider lemmas. -/

theorem map_const_false (l : List Bool) :
    l.map (fun _ => false) = List.replicate l.length false := by
  induction l with
  | nil => rfl
  | cons a l ih => simp [List.replicate_succ, ih]

theorem oneActive_length (n i : Nat) : (oneActive n i).length = n := by
  simp [oneActive]

theorem nextStep_eq (s : Slider) (h : 0 < s.slides.length) :
    nextStep s
      = some { slides := oneActive s.slides.length (nextIndex s), current := nextIndex s } := by
  have hlt : nextIndex s < s.slides.length := Nat.mod_lt _ h
  simp [nextStep, showSlide, hlt, oneActive, map_const_false]

theorem iterate_canonical (n : Nat) (hn : 0 < n) :
    ∀ (k j : Nat), j < n →
    iterateNext k { slides := oneActive n j, current := j }
      = some { slides := oneActive n ((j + k) % n), current := (j + k) % n } := by
  intro k
  induction k with
  | zero =>
    intro j hj
    simp [iterateNext, Nat.mod_eq_of_lt hj]
  | succ k ih =>
    intro j hj
    have hstep : nextStep { slides := oneActive n j, current := j }
        = some { slides := oneActive n ((j + 1) % n), current := (j + 1) % n } := by
      rw [nextStep_eq _ (by rw [oneActive_length]; exact hn)]
      simp [nextIndex, oneActive_length]
    have hj1 : (j + 1) % n < n := Nat.mod_lt _ hn
    have hbind : iterateNext (k + 1) { slides := oneActive n j, current := j }
        = (nextStep { slides := oneActive n j, current := j }).bind (iterateNext k) := rfl
    rw [hbind, hstep, Option.some_bind, ih _ hj1, Nat.mod_add_mod]
    rw [Nat.add_assoc, Nat.add_comm 1 k]

theorem prevIndex_next_int (c n : Nat) (h : c < n) :
    ((((c + 1) % n : Nat) : Int) - 1 + (n : Int)) % (n : Int) = (c : Int) := by
  by_cases h1 : c + 1 < n
  · rw [Nat.mod_eq_of_lt h1]
    push_cast
    have he : ((c : Int) + 1 - 1 + n) = (c : Int) + n * 1 := by ring
    rw [he, Int.add_mul_emod_self_left]
    exact Int.emod_eq_of_lt (by positivity) (by exact_mod_cast h)
  · have h2 : c + 1 = n := by omega
    rw [h2, Nat.mod_self]
    have he : ((0 : Nat) : Int) - 1 + (n : Int) = (n : Int) - 1 := by push_cast; ring
    rw [he, Int.emod_eq_of_lt (by omega) (by omega)]
    omega

theorem prevStep_canonical (n c : Nat) (hc : c < n) :
    prevStep { slides := oneActive n ((c + 1) % n), current := (c + 1) % n }
      = some { slides := oneActive n c, current := c } := by
  have hidx : prevIndex { slides := oneActive n ((c + 1) % n), current := (c + 1) % n } = c := by
    unfold prevIndex
    rw [oneActive_length, prevIndex_next_int c n hc]
    simp
  unfold prevStep
  rw [hidx]
  unfold showSlide
  simp only [oneActive_length, hc, if_pos]
  rw [map_const_false, oneActive_length]
  rfl

/-! Equations and frame lemmas for updateUI and changeLanguage. -/

theorem updateUI_none_eq (st : TMState) (d : DocState)
    (h : lookupFirst st.translations st.currentLang = none) : updateUI st d = d := by
  unfold updateUI
  rw [h]

theorem updateUI_some_eq (st : TMState) (d : DocState) (t : Resource)
    (h : lookupFirst st.translations st.currentLang = some t) :
    updateUI st d = bindings.foldl (syncStep t) d := by
  unfold updateUI
  rw [h]

theorem updateUI_bodyDir (st : TMState) (d : DocState) :
    (updateUI st d).bodyDir = d.bodyDir := by
  cases h : lookupFirst st.translations st.currentLang with
  | none => rw [updateUI_none_eq st d h]
  | some t => rw [updateUI_some_eq st d t h, foldl_syncStep_elems t bindings d]

theorem updateUI_bodyClasses (st : TMState) (d : DocState) :
    (updateUI st d).bodyClasses = d.bodyClasses := by
  cases h : lookupFirst st.translations st.currentLang with
  | none => rw [updateUI_none_eq st d h]
  | some t => rw [updateUI_some_eq st d t h, foldl_syncStep_elems t bindings d]

theorem updateUI_langOptions (st : TMState) (d : DocState) :
    (updateUI st d).langOptions = d.langOptions := by
  cases h : lookupFirst st.translations st.currentLang with
  | none => rw [updateUI_none_eq st d h]
  | some t => rw [updateUI_some_eq st d t h, foldl_syncStep_elems t bindings d]

theorem updateUI_elems_eq (st : TMState) (d : DocState) (t : Resource)
    (h : lookupFirst st.translations st.currentLang = some t) :
    (updateUI st d).elems = bindings.foldl (syncStepE t) d.elems := by
  rw [updateUI_some_eq st d t h, foldl_syncStep_elems t bindings d]

theorem docState_ext (d1 d2 : DocState) (h1 : d1.elems = d2.elems)
    (h2 : d1.langOptions = d2.langOptions) (h3 : d1.bodyDir = d2.bodyDir)
    (h4 : d1.bodyClasses = d2.bodyClasses) : d1 = d2 := by
  cases d1
  cases d2
  simp_all

theorem mem_classAdd (cs : List String) (c : String) : c ∈ classAdd cs c := by
  unfold classAdd
  by_cases h : c ∈ cs
  · rwa [if_pos h]
  · rw [if_neg h]
    exact List.mem_append_right cs (List.mem_singleton.mpr rfl)

theorem not_mem_classRemove (cs : List String) (c : String) : c ∉ classRemove cs c := by
  unfold classRemove
  intro h
  have := List.of_mem_filter h
  simp at this

theorem changeLanguage_body (st : TMState) (d : DocState) (lang : String)
    (f : Option Resource) (h : lang ≠ st.currentLang) :
    (changeLanguage st d lang f).2.bodyDir = (if lang = "ar" then "rtl" else "ltr")
    ∧ (changeLanguage st d lang f).2.bodyClasses
        = (if lang = "ar" then classRemove d.bodyClasses "ltr"
           else classAdd d.bodyClasses "ltr") := by
  simp only [changeLanguage, if_neg h]
  cases hlb : currentLangLabel lang <;>
    by_cases har : lang = "ar" <;>
      simp [hlb, har, updateUI_bodyDir, updateUI_bodyClasses]

/-! Countdown lemma. -/

theorem updateCountdown_const (now : Nat) :
    updateCountdown now = { days := 30, hours := 0, minutes := 0, seconds := 0 } := by
  simp only [updateCountdown, launchDate, Nat.add_sub_cancel_left]
  simp [msPerDay, msPerHour, msPerMinute, msPerSecond]

/-! Claim theorems. -/

/-- Claim C1, counterexample: with ar current and the en resource not
cached, a changeLanguage to en whose fetch fails still sets the current
language to en — the current-language state is not left unchanged on this
path, because line 186 of src/scripts.js assigns this.currentLang outside
the load-success path. -/
theorem failed_load_changes_current_cex :
    stAr.currentLang = "ar"
    ∧ lookupFirst stAr.translations "en" = none
    ∧ (changeLanguage stAr emptyDoc "en" none).1.currentLang = "en" := by
  refine ⟨rfl, rfl, ?_⟩
  decide

/-- Claim C1, amended: when the resource load fails, a direct loadLanguage
call leaves the whole manager state (current language and cache)
unchanged, and changeLanguage leaves the resource cache unchanged but
still sets the current language to the requested code; only a diagnostic
is logged. -/
theorem failed_load_state_effects (st : TMState) (d : DocState) (lang : String) :
    loadLanguage st lang none = st
    ∧ (changeLanguage st d lang none).1.translations = st.translations
    ∧ (changeLanguage st d lang none).1.currentLang = lang := by
  refine ⟨rfl, ?_, changeLanguage_currentLang st d lang none⟩
  by_cases hg : lang = st.currentLang
  · rw [changeLanguage_self st d lang none hg]
  · by_cases hc : (lookupFirst st.translations lang).isSome
    · simp [changeLanguage, hg, hc]
    · simp [changeLanguage, hg, hc, loadLanguage]

/-- Claim C2, counterexample: loadLanguage performs the fetch even when
the resource for the code is already cached (the fetch on line 32 of
src/scripts.js has no cache guard), and a successful re-fetch overwrites
the cached resource. -/
theorem loadLanguage_refetches_cached_cex :
    (lookupFirst stAr.translations "ar").isSome = true
    ∧ (stepOp (stAr, emptyDoc) (Op.load "ar" (some resB))).2 = ["ar"]
    ∧ lookupFirst (loadLanguage stAr "ar" (some resB)).translations "ar" = some resB := by
  refine ⟨rfl, rfl, ?_⟩
  decide

/-- Claim C2, amended: the not-cached guard lives in changeLanguage
(src/scripts.js lines 182-184), not in loadLanguage; across any sequence
of changeLanguage operations, a language code whose resource is cached is
never fetched again. -/
theorem cached_resource_never_refetched :
    ∀ (ops : List Op) (s : TMState × DocState) (lang : String),
    (lookupFirst s.1.translations lang).isSome = true →
    (∀ op ∈ ops, op.isChange = true) →
    lang ∉ (runOps s ops).2 := by
  intro ops
  induction ops with
  | nil =>
    intro s lang _ _
    simp [runOps]
  | cons op rest ih =>
    intro s lang hcached hops
    have hop := hops op (List.mem_cons_self op rest)
    cases op with
    | load l f => simp [Op.isChange] at hop
    | change l f =>
      intro hmem
      simp only [runOps, List.mem_append] at hmem
      rcases hmem with h1 | h2
      · exact fetchEvents_change_not_cached s.1 l lang f hcached h1
      · exact ih (stepOp s (Op.change l f)).1 lang
          (changeLanguage_translations_mono s.1 s.2 l lang f hcached)
          (fun op2 hm => hops op2 (List.mem_cons_of_mem _ hm)) h2

/-- Witness for cached_resource_never_refetched: in a concrete session
that switches away from ar and back, the cached ar resource is never
fetched again. -/
theorem cached_resource_never_refetched_witness :
    "ar" ∉ (runOps (stAr, emptyDoc) [Op.change "en" none, Op.change "ar" none]).2 :=
  cached_resource_never_refetched [Op.change "en" none, Op.change "ar" none]
    (stAr, emptyDoc) "ar" (by decide) (by decide)

/-- Claim C3: after the resource of a code has been loaded into the cache,
changeLanguage leaves the current-language state equal to that code, and
an immediately repeated changeLanguage with the same code is a complete
no-op on both the manager state and the document state. -/
theorem changeLanguage_sets_current_and_repeat_noop (st : TMState) (d : DocState)
    (code : String) (f f2 : Option Resource)
    (hloaded : (lookupFirst st.translations code).isSome = true) :
    (changeLanguage st d code f).1.currentLang = code
    ∧ changeLanguage (changeLanguage st d code f).1 (changeLanguage st d code f).2 code f2
        = ((changeLanguage st d code f).1, (changeLanguage st d code f).2) := by
  refine ⟨changeLanguage_currentLang st d code f, ?_⟩
  exact changeLanguage_self _ _ _ f2 (changeLanguage_currentLang st d code f).symm

/-- Witness for changeLanguage_sets_current_and_repeat_noop at a concrete
state with the en resource cached. -/
theorem changeLanguage_sets_current_and_repeat_noop_witness :
    (changeLanguage stArEn emptyDoc "en" none).1.currentLang = "en"
    ∧ changeLanguage (changeLanguage stArEn emptyDoc "en" none).1
        (changeLanguage stArEn emptyDoc "en" none).2 "en" none
        = ((changeLanguage stArEn emptyDoc "en" none).1,
           (changeLanguage stArEn emptyDoc "en" none).2) :=
  changeLanguage_sets_current_and_repeat_noop stArEn emptyDoc "en" none none (by decide)

/-- Claim C4: switching the language to ar sets the body dir attribute to
rtl and removes the ltr class marker; switching to fr or en sets the dir
attribute to ltr and adds the ltr class marker. -/
theorem changeLanguage_direction (st : TMState) (d : DocState) (lang : String)
    (f : Option Resource) (hswitch : lang ≠ st.currentLang) :
    (lang = "ar" →
      (changeLanguage st d lang f).2.bodyDir = "rtl"
      ∧ "ltr" ∉ (changeLanguage st d lang f).2.bodyClasses)
    ∧ ((lang = "fr" ∨ lang = "en") →
      (changeLanguage st d lang f).2.bodyDir = "ltr"
      ∧ "ltr" ∈ (changeLanguage st d lang f).2.bodyClasses) := by
  obtain ⟨hdir, hcls⟩ := changeLanguage_body st d lang f hswitch
  constructor
  · intro har
    rw [hdir, hcls, if_pos har, if_pos har]
    exact ⟨rfl, not_mem_classRemove d.bodyClasses "ltr"⟩
  · intro hother
    have har : lang ≠ "ar" := by
      rcases hother with rfl | rfl <;> decide
    rw [hdir, hcls, if_neg har, if_neg har]
    exact ⟨rfl, mem_classAdd d.bodyClasses "ltr"⟩

/-- Witness for changeLanguage_direction: a concrete switch from ar to fr
and a concrete switch from fr to ar. -/
theorem changeLanguage_direction_witness :
    ((changeLanguage stAr emptyDoc "fr" none).2.bodyDir = "ltr"
      ∧ "ltr" ∈ (changeLanguage stAr emptyDoc "fr" none).2.bodyClasses)
    ∧ ((changeLanguage stFr emptyDoc "ar" none).2.bodyDir = "rtl"
      ∧ "ltr" ∉ (changeLanguage stFr emptyDoc "ar" none).2.bodyClasses) :=
  ⟨(changeLanguage_direction stAr emptyDoc "fr" none (by decide)).2 (Or.inl rfl),
   (changeLanguage_direction stFr emptyDoc "ar" none (by decide)).1 rfl⟩

/-- Claim C5: updateUI is idempotent: applying the region synchronization
twice in a row with the same current resource yields the same final
document state as applying it once. -/
theorem updateUI_idempotent (st : TMState) (d : DocState) :
    updateUI st (updateUI st d) = updateUI st d := by
  cases h : lookupFirst st.translations st.currentLang with
  | none =>
    rw [updateUI_none_eq st d h, updateUI_none_eq st d h]
  | some t =>
    apply docState_ext
    · rw [updateUI_elems_eq st (updateUI st d) t h, updateUI_elems_eq st d t h,
          foldE_idem t bindings bindings_sels_nodup d.elems]
    · rw [updateUI_langOptions, updateUI_langOptions]
    · rw [updateUI_bodyDir, updateUI_bodyDir]
    · rw [updateUI_bodyClasses, updateUI_bodyClasses]

/-- Claim C6: a region binding whose key is absent from the current
resource, or whose value is the empty string, or whose selector matches no
element, is left by updateUI exactly as it was (never cleared or blanked);
a binding with a present, non-empty value and a present element is updated
normally with the value. -/
theorem sync_missing_region_frame (st : TMState) (t : Resource) (d : DocState) (b : Binding)
    (ht : lookupFirst st.translations st.currentLang = some t) (hb : b ∈ bindings) :
    ((lookupFirst t b.key = none ∨ lookupFirst t b.key = some ""
        ∨ lookupFirst d.elems b.sel = none) →
      lookupFirst (updateUI st d).elems b.sel = lookupFirst d.elems b.sel)
    ∧ (∀ (c : String) (el : Elem), lookupFirst t b.key = some c → c ≠ "" →
        lookupFirst d.elems b.sel = some el →
        lookupFirst (updateUI st d).elems b.sel = some (applyUpdate b.ty c el)) := by
  constructor
  · intro hcase
    rw [updateUI_elems_eq st d t ht]
    rcases hcase with h | h | h
    · exact foldE_frame_inactive t b bindings bindings_sels_nodup hb (Or.inl h) d.elems
    · exact foldE_frame_inactive t b bindings bindings_sels_nodup hb (Or.inr h) d.elems
    · rw [foldE_none_preserved t b.sel bindings d.elems h, h]
  · intro c el hk hc hel
    rw [updateUI_elems_eq st d t ht]
    exact foldE_applies t b bindings bindings_sels_nodup hb c el d.elems hk hc hel

/-- Witness for sync_missing_region_frame: a resource without the home key
leaves the home region untouched, and a resource with a hero title
rewrites the hero markup with it. -/
theorem sync_missing_region_frame_witness :
    lookupFirst (updateUI stW homeDoc).elems bHome.sel = lookupFirst homeDoc.elems bHome.sel
    ∧ lookupFirst (updateUI stW heroDoc).elems bHero.sel
        = some (applyUpdate bHero.ty "Welcome"
            { textContent := "", innerHTML := "x", placeholder := "", classes := [] }) :=
  ⟨(sync_missing_region_frame stW resW homeDoc bHome (by decide) (by decide)).1
      (Or.inl (by decide)),
   (sync_missing_region_frame stW resW heroDoc bHero (by decide) (by decide)).2
      "Welcome" _ (by decide) (by decide) (by decide)⟩

/-- Claim C7: when no resource is cached for the current language,
updateUI logs a diagnostic and returns with the document state untouched:
that call performs no partial update of any region. -/
theorem updateUI_missing_resource_noop (st : TMState) (d : DocState)
    (h : lookupFirst st.translations st.currentLang = none) :
    updateUI st d = d :=
  updateUI_none_eq st d h

/-- Witness for updateUI_missing_resource_noop at a concrete state with an
empty cache. -/
theorem updateUI_missing_resource_noop_witness : updateUI stNone homeDoc = homeDoc :=
  updateUI_missing_resource_noop stNone homeDoc (by decide)

/-- Claim C8: with at least one slide and the current index in range,
count consecutive next-advances return the active slide to the initial
index, and one next-advance followed by one previous-advance also returns
the active slide to the initial index. -/
theorem slider_next_prev_cycle (s : Slider) (h0 : 0 < s.slides.length)
    (h1 : s.current < s.slides.length) :
    iterateNext s.slides.length s
      = some { slides := oneActive s.slides.length s.current, current := s.current }
    ∧ (nextStep s).bind prevStep
      = some { slides := oneActive s.slides.length s.current, current := s.current } := by
  have hnext : nextStep s
      = some { slides := oneActive s.slides.length ((s.current + 1) % s.slides.length)
             , current := (s.current + 1) % s.slides.length } := by
    rw [nextStep_eq s h0]
    rfl
  constructor
  · obtain ⟨m, hm⟩ : ∃ m, s.slides.length = m + 1 := ⟨s.slides.length - 1, by omega⟩
    have hb : iterateNext s.slides.length s = (nextStep s).bind (iterateNext m) := by
      rw [hm]
      rfl
    rw [hb, hnext, Option.some_bind,
        iterate_canonical s.slides.length h0 m ((s.current + 1) % s.slides.length)
          (Nat.mod_lt _ h0)]
    have hcyc : ((s.current + 1) % s.slides.length + m) % s.slides.length = s.current := by
      rw [Nat.mod_add_mod]
      have hsum : s.current + 1 + m = s.current + s.slides.length := by omega
      rw [hsum, Nat.add_mod_right]
      exact Nat.mod_eq_of_lt h1
    rw [hcyc]
  · rw [hnext, Option.some_bind]
    exact prevStep_canonical s.slides.length s.current h1

/-- Witness for slider_next_prev_cycle on a concrete three-slide
slider. -/
theorem slider_next_prev_cycle_witness :
    iterateNext 3 sld3 = some { slides := oneActive 3 1, current := 1 }
    ∧ (nextStep sld3).bind prevStep = some { slides := oneActive 3 1, current := 1 } :=
  slider_next_prev_cycle sld3 (by decide) (by decide)

/-- Claim C9: every countdown tick recomputes the launch date as a fixed
30-day offset ahead of that very tick, so the deadline advances with the
clock and the display always shows the full offset (30 days, 0 hours,
0 minutes, 0 seconds): the displayed remaining time never reaches
zero. -/
theorem countdown_fixed_offset (now : Nat) :
    updateCountdown now = { days := 30, hours := 0, minutes := 0, seconds := 0 }
    ∧ launchDate now = now + 30 * msPerDay
    ∧ ∀ later : Nat, now < later → launchDate now < launchDate later := by
  refine ⟨updateCountdown_const now, rfl, ?_⟩
  intro later hlt
  unfold launchDate
  omega

/-- Witness for countdown_fixed_offset at two concrete tick instants. -/
theorem countdown_fixed_offset_witness :
    updateCountdown 0 = { days := 30, hours := 0, minutes := 0, seconds := 0 }
    ∧ launchDate 0 < launchDate 1000 :=
  ⟨(countdown_fixed_offset 0).1, (countdown_fixed_offset 0).2.2 1000 (by decide)⟩

/-- Claim C10: with zero slides the auto-advance step is unsafe: in the
total embedding the slide activation returns none (in the browser the
handler throws at the indexing); with at least one slide every
next-advance succeeds and keeps the index inside the range. -/
theorem slider_zero_slides_failure :
    nextStep { slides := [], current := 0 } = none
    ∧ ∀ s : Slider, 0 < s.slides.length → s.current < s.slides.length →
      ∃ s2, nextStep s = some s2
        ∧ s2.current < s.slides.length ∧ s2.slides.length = s.slides.length := by
  constructor
  · rfl
  · intro s h0 h1
    refine ⟨_, nextStep_eq s h0, ?_, ?_⟩
    · exact Nat.mod_lt _ h0
    · exact oneActive_length _ _

/-- Witness for slider_zero_slides_failure: the zero-slide step fails, and
a step on a concrete three-slide slider stays in range. -/
theorem slider_zero_slides_failure_witness :
    nextStep { slides := [], current := 0 } = none
    ∧ ∃ s2, nextStep sld3 = some s2 ∧ s2.current < 3 ∧ s2.slides.length = 3 :=
  ⟨slider_zero_slides_failure.1, slider_zero_slides_failure.2 sld3 (by decide) (by decide)⟩

end Keewepa
